import Mathlib

/-!
Shallow embedding of the news-portal client (a Next.js/React UI) for
verification of its natural-language specification.

Sources embedded:
- `src/app/components/SharedItems/RichTextEditor/RichTextEditor.tsx`
  (paste sanitization `handlePaste`, link insertion `handleAddLink`);
- `src/app/components/AuthItems/RegistrationPage/Registration.tsx`
  (registration handler `handleRegistration`, login handler `handleLogin`);
- `src/app/(web-settings)/web-settings/basic-settings/page.tsx`
  (settings submission `handleSubmit`, asset upload `handleFileUpload`).

DOM HTML fragments are modelled as trees of element/text nodes with the
tag names already in canonical lower case (the source compares
`el.tagName.toLowerCase()` against a lower-case allow-list).  JavaScript
string truthiness (`""` is falsy) and number truthiness (`0` is falsy)
are translated explicitly at each use site.
-/

namespace NewsPortal

/-- A DOM node of a parsed HTML fragment: a text node, or an element with
a tag name, an attribute list and child nodes. -/
inductive HtmlNode where
  | text (s : String)
  | elem (tag : String) (attrs : List (String × String)) (children : List HtmlNode)
deriving Repr

/-- The fixed allow-list of tags kept by `handlePaste`
(`RichTextEditor.tsx`, the `allowedTags` array). -/
def allowedTags : List String :=
  ["p", "br", "b", "strong", "i", "em", "u", "a", "ul", "ol", "li",
   "h1", "h2", "h3", "h4", "h5", "h6", "blockquote", "pre", "code"]

/-- The tags removed together with their whole subtree by `handlePaste`
(`tempDiv.querySelectorAll("script, style, meta, link")` followed by
`el.remove()`). -/
def droppedTags : List String := ["script", "style", "meta", "link"]

mutual

/-- First pass of `handlePaste`: elements matching
`script, style, meta, link` are removed together with their content;
every other node is kept, its children filtered recursively. -/
def removeDroppedNode : HtmlNode → List HtmlNode
  | .text s => [.text s]
  | .elem t a cs =>
      if t ∈ droppedTags then [] else [.elem t a (removeDroppedList cs)]

/-- `removeDroppedNode` mapped over a list of siblings. -/
def removeDroppedList : List HtmlNode → List HtmlNode
  | [] => []
  | n :: ns => removeDroppedNode n ++ removeDroppedList ns

end

mutual

/-- Second pass of `handlePaste`: the denotation of
`tempDiv.querySelectorAll("*").forEach(el => if tag not allowed then
el.replaceWith(...el.childNodes))`.  The static snapshot taken by
`querySelectorAll` lists every element of the tree in document order and
`replaceWith` splices an element's children into its parent, so the net
effect of the loop is this recursive flattening: an element whose tag is
not in `allowedTags` is replaced by its (recursively processed)
children. -/
def flattenNode : HtmlNode → List HtmlNode
  | .text s => [.text s]
  | .elem t a cs =>
      if t ∈ allowedTags then [.elem t a (flattenList cs)] else flattenList cs

/-- `flattenNode` mapped over a list of siblings. -/
def flattenList : List HtmlNode → List HtmlNode
  | [] => []
  | n :: ns => flattenNode n ++ flattenList ns

end

/-- The `cleanHtml` value computed by `handlePaste` from the parsed
clipboard HTML: the dropped-tag removal pass followed by the allow-list
flattening pass. -/
def cleanHtml (ns : List HtmlNode) : List HtmlNode :=
  flattenList (removeDroppedList ns)

mutual

/-- Every element tag in the node is in `allowedTags`. -/
def nodeAllowed : HtmlNode → Bool
  | .text _ => true
  | .elem t _ cs => decide (t ∈ allowedTags) && listAllowed cs

/-- Every element tag anywhere in the list of nodes is in `allowedTags`. -/
def listAllowed : List HtmlNode → Bool
  | [] => true
  | n :: ns => nodeAllowed n && listAllowed ns

end

/-- The clipboard payload seen by `handlePaste`:
`e.clipboardData.getData("text/html")` parsed into nodes when the payload
carries an (non-empty) HTML representation, and the
`text/plain` representation.  `html = none` models the case where
`getData("text/html")` returns the empty string, which is falsy in the
source's `if (html)` test. -/
structure ClipboardData where
  html : Option (List HtmlNode)
  plain : String

/-- What `handlePaste` inserts at the selection: either a sanitized HTML
fragment (the `range.insertNode(fragment)` path) or the plain text
(the `document.execCommand("insertText", false, text)` fallback). -/
inductive PasteInsertion where
  | htmlContent (ns : List HtmlNode)
  | plainText (s : String)
deriving Repr

/-- `handlePaste` of `RichTextEditor.tsx`: with an HTML representation
present, sanitize it with the two passes and insert the result;
otherwise insert the plain-text representation. -/
def handlePaste (cd : ClipboardData) : PasteInsertion :=
  match cd.html with
  | some ns => .htmlContent (cleanHtml ns)
  | none => .plainText cd.plain

/-! Sanitizer lemmas. -/

theorem listAllowed_append (xs ys : List HtmlNode) :
    listAllowed (xs ++ ys) = (listAllowed xs && listAllowed ys) := by
  induction xs with
  | nil => simp [listAllowed]
  | cons x xs ih => simp [listAllowed, ih, Bool.and_assoc]

mutual

theorem nodeAllowed_flattenNode (n : HtmlNode) :
    listAllowed (flattenNode n) = true := by
  match n with
  | .text s => simp [flattenNode, listAllowed, nodeAllowed]
  | .elem t a cs =>
      by_cases h : t ∈ allowedTags
      · simp [flattenNode, h, listAllowed, nodeAllowed,
          listAllowed_flattenList cs]
      · simp [flattenNode, h, listAllowed_flattenList cs]

theorem listAllowed_flattenList (ns : List HtmlNode) :
    listAllowed (flattenList ns) = true := by
  match ns with
  | [] => simp [flattenList, listAllowed]
  | n :: ns =>
      simp [flattenList, listAllowed_append, nodeAllowed_flattenNode n,
        listAllowed_flattenList ns]

end

theorem listAllowed_cleanHtml (ns : List HtmlNode) :
    listAllowed (cleanHtml ns) = true :=
  listAllowed_flattenList (removeDroppedList ns)

theorem allowed_not_dropped (t : String) (h : t ∈ allowedTags) :
    t ∉ droppedTags := by
  fin_cases h <;> decide

/-! ## Link insertion (`handleAddLink` of `RichTextEditor.tsx`)

`new URL(linkUrl)` is a browser API, so its parser is kept abstract: the
embedding is parameterised over a parse oracle returning the parsed
record (here reduced to the `protocol` field, which includes the trailing
colon, e.g. `"https:"`) or `none` when parsing throws.  The `try/catch`
of the source catches both the parse failure and the deliberate
`throw new Error("Invalid protocol")`, so the handler is total: every
branch returns, none re-throws. -/

/-- The `protocol`-relevant part of the record produced by
`new URL(linkUrl)`. -/
structure URLParts where
  protocol : String
deriving Repr, DecidableEq

/-- JavaScript `String.prototype.trim()`: whitespace removed from both
ends of the string. -/
def jsTrim (s : String) : String :=
  ⟨((s.toList.dropWhile Char.isWhitespace).reverse.dropWhile
      Char.isWhitespace).reverse⟩

/-- The second list of characters is an initial segment of the first. -/
def leadMatch : List Char → List Char → Bool
  | _, [] => true
  | [], _ :: _ => false
  | c :: cs, d :: ds => c == d && leadMatch cs ds

/-- JavaScript `String.prototype.startsWith(pat)`. -/
def jsStartsWith (s pat : String) : Bool :=
  leadMatch s.toList pat.toList

/-- The observable outcome of `handleAddLink`: an inline `alert` prompt
with no insertion, a silent no-op (editor or selection unavailable), or
the insertion of an anchor with the given `href` and display text. -/
inductive LinkOutcome where
  | rejected (prompt : String)
  | noop
  | inserted (href text : String)
deriving Repr, DecidableEq

/-- `handleAddLink` of `RichTextEditor.tsx`.  `parse` is the
`new URL(...)` oracle; `editorAvailable` models
`editorRef.current && window.getSelection()` being usable;
`selectedText` is `selection.toString()`.  The display text is the JS
falsy-chain `selectedText || linkText || linkUrl`. -/
def handleAddLink (parse : String → Option URLParts) (editorAvailable : Bool)
    (linkUrl linkText selectedText : String) : LinkOutcome :=
  if jsTrim linkUrl = "" then
    .rejected "Please enter a URL"
  else
    match parse linkUrl with
    | none => .rejected "Please enter a valid URL starting with http:// or https://"
    | some u =>
        if jsStartsWith u.protocol "http" then
          if editorAvailable then
            .inserted linkUrl
              (if selectedText ≠ "" then selectedText
               else if linkText ≠ "" then linkText else linkUrl)
          else .noop
        else .rejected "Please enter a valid URL starting with http:// or https://"

/-! ## Authentication (`Registration.tsx`)

The file contains both the registration component (`handleRegistration`)
and the login component (`handleLogin`). -/

/-- The embedding of the email check
`/^[^\s@]+@[^\s@]+\.[^\s@]+$/.test(email)` used by both handlers: the
string splits at a single `@` into a nonempty whitespace-free local part
and a whitespace-free domain part containing a `.` that is neither its
first nor its last character. -/
def matchesEmailRegex (s : String) : Bool :=
  match s.toList.splitOn '@' with
  | [l, d] =>
      !l.isEmpty && l.all (fun c => !c.isWhitespace) &&
      d.all (fun c => !c.isWhitespace) &&
      ((d.drop 1).dropLast.contains '.')
  | _ => false

/-- The registration form state (`formData` of the `SignUp` component);
`role` is initialised to `"user"`. -/
structure RegForm where
  name : String
  email : String
  password : String
  confirmPassword : String
  role : String
deriving Repr, DecidableEq

/-- The initial `useState` value of the registration form. -/
def initialRegForm : RegForm :=
  { name := "", email := "", password := "", confirmPassword := "", role := "user" }

/-- The input fields rendered by the registration form; these are the
only `name` attributes that `handleChange` can receive, so they are the
only fields user interaction can write. -/
inductive RegField where
  | nameField
  | emailField
  | passwordField
  | confirmPasswordField
deriving Repr, DecidableEq

/-- `handleChange` of the `SignUp` component:
`setFormData({...formData, [e.target.name]: e.target.value})`. -/
def setRegField (fd : RegForm) : RegField → String → RegForm
  | .nameField, v => { fd with name := v }
  | .emailField, v => { fd with email := v }
  | .passwordField, v => { fd with password := v }
  | .confirmPasswordField, v => { fd with confirmPassword := v }

/-- Registration form states reachable through the component: the
initial state, any user edit through `handleChange`, and the reset to
the initial values performed after a successful registration. -/
inductive RegReachable : RegForm → Prop where
  | init : RegReachable initialRegForm
  | change {fd : RegForm} (f : RegField) (v : String) :
      RegReachable fd → RegReachable (setRegField fd f v)
  | reset {fd : RegForm} : RegReachable fd → RegReachable initialRegForm

/-- The observable outcome of a registration submission: blocked
client-side with an error message (and zero network calls), or a single
POST to `/users/registration` with the given body fields. -/
inductive RegOutcome where
  | blocked (err : String)
  | request (name email password role : String)
deriving Repr, DecidableEq

/-- `handleRegistration` of `Registration.tsx`: the four client-side
checks in source order, then the single `axiosInstance.post` whose body
is built from the form fields. -/
def handleRegistration (fd : RegForm) : RegOutcome :=
  if fd.name = "" ∨ fd.email = "" ∨ fd.password = "" then
    .blocked "All fields are required"
  else if ¬ matchesEmailRegex fd.email then
    .blocked "Please enter a valid email address"
  else if fd.password.length < 6 then
    .blocked "Password must be at least 6 characters long"
  else if fd.password ≠ fd.confirmPassword then
    .blocked "Passwords do not match"
  else
    .request fd.name fd.email fd.password fd.role

/-- A registration form state failing at least one of the client-side
checks: a required field empty (the confirmation included), a malformed
email, a short password, or a password/confirmation mismatch. -/
def regChecksFail (fd : RegForm) : Bool :=
  fd.name = "" || fd.email = "" || fd.password = "" || fd.confirmPassword = "" ||
  !matchesEmailRegex fd.email || fd.password.length < 6 ||
  fd.password ≠ fd.confirmPassword

/-- The login form state (`formData` of the `SignIn` component). -/
structure LoginForm where
  email : String
  password : String
deriving Repr, DecidableEq

/-- The observable outcome of a login submission: blocked client-side
with an error message, or a single POST to `/users/login`. -/
inductive LoginOutcome where
  | blocked (err : String)
  | request (email password : String)
deriving Repr, DecidableEq

/-- The validation prefix of `handleLogin` in `Registration.tsx`:
field presence, then the email regex, then the single
`axiosInstance.post("/users/login", ...)`. -/
def handleLoginSubmit (fd : LoginForm) : LoginOutcome :=
  if fd.email = "" ∨ fd.password = "" then
    .blocked "Email and password are required"
  else if ¬ matchesEmailRegex fd.email then
    .blocked "Please enter a valid email address"
  else
    .request fd.email fd.password

/-- A login form state failing one of its client-side checks. -/
def loginChecksFail (fd : LoginForm) : Bool :=
  fd.email = "" || fd.password = "" || !matchesEmailRegex fd.email

/-- The session/user record stored by login
(`localStorage.setItem("user", JSON.stringify(response.data.user))`). -/
structure UserRec where
  id : Int
  name : String
  email : String
  role : String
deriving Repr, DecidableEq

/-- A login response envelope: the success flag, the token and the user
record it carries. -/
structure LoginResponse where
  success : Bool
  token : String
  user : UserRec
deriving Repr

/-- The client-side state touched by the success branch of
`handleLogin`: the two `localStorage` slots, the shared axios default
`Authorization` header, and the form/message state. -/
structure ClientState where
  storedToken : Option String
  storedUser : Option UserRec
  authHeader : Option String
  form : LoginForm
  error : String
  successMsg : String
deriving Repr

/-- The response-processing tail of `handleLogin`: on a response whose
success flag is set, store the token and the user record, set the shared
client default header to `Bearer <token>`, set the success message and
clear the form; otherwise leave the state unchanged. -/
def handleLoginResponse (st : ClientState) (r : LoginResponse) : ClientState :=
  if r.success then
    { st with
      successMsg := "Login successful! Redirecting..."
      storedToken := some r.token
      storedUser := some r.user
      authHeader := some ("Bearer " ++ r.token)
      form := { email := "", password := "" } }
  else st

/-- Modelled from the spec: the shared HTTP client (the
`AxiosInstance` module, imported by every component but not present
under `src/`) is "an HTTP client configured with a base address and
bearer-token header, used for all requests"; a request through it
carries the instance's default `Authorization` header when one is set. -/
def clientRequestHeaders (st : ClientState) : List (String × String) :=
  match st.authHeader with
  | some h => [("Authorization", h)]
  | none => []

/-! ## Settings page (`basic-settings/page.tsx`) -/

/-- The flat configuration record `BasicSettingsData`; `id?` is an
optional number. -/
structure BasicSettingsData where
  id : Option Int
  site_name : String
  tagline : String
  logo_url : String
  favicon_url : String
  contact_email : String
  contact_phone : String
  contact_address : String
  facebook_url : String
  x_url : String
  instagram_url : String
  meta_description : String
  meta_keywords : String
  meta_author : String
  google_analytics_id : String
  copyright_text : String
  maintenance_mode : Bool
deriving Repr, DecidableEq

/-- JavaScript truthiness of the optional numeric `settings.id`: present
and nonzero.  (`undefined` and `0` are both falsy.) -/
def idTruthy : Option Int → Bool
  | none => false
  | some n => n != 0

/-- HTTP method of a request issued through the shared client. -/
inductive Method where
  | get
  | post
  | put
deriving Repr, DecidableEq

/-- A settings-submission request: method, path, and the record sent as
body. -/
structure SettingsRequest where
  method : Method
  path : String
  body : BasicSettingsData
deriving Repr, DecidableEq

/-- The request chosen by `handleSubmit` of `basic-settings/page.tsx`:
`settings.id ? axiosInstance.put(`/basic-settings/${settings.id}`,
settings) : axiosInstance.post("/basic-settings", settings)`. -/
def handleSubmitRequest (s : BasicSettingsData) : SettingsRequest :=
  match s.id with
  | some n =>
      if n != 0 then
        { method := .put, path := "/basic-settings/" ++ toString n, body := s }
      else
        { method := .post, path := "/basic-settings", body := s }
  | none => { method := .post, path := "/basic-settings", body := s }

/-- The full list of requests one submission issues: the `try` block of
`handleSubmit` awaits exactly the one request chosen by the ternary. -/
def handleSubmitRequests (s : BasicSettingsData) : List SettingsRequest :=
  [handleSubmitRequest s]

/-- The outcome of the awaited submission request: a transport failure
or thrown error carrying an optional server message (the `catch` path),
or a received response envelope `{success, message, data?}`. -/
inductive SubmitResult where
  | transportError (msg : Option String)
  | envelope (success : Bool) (message : String) (data : Option BasicSettingsData)
deriving Repr

/-- `true` when the submission failed: transport failure or
service-reported failure (envelope with the success flag cleared). -/
def submitFailed : SubmitResult → Bool
  | .transportError _ => true
  | .envelope ok _ _ => !ok

/-- The component state of the settings page touched by `handleSubmit`. -/
structure SettingsPageState where
  settings : BasicSettingsData
  error : String
  successMsg : String
  saving : Bool
deriving Repr

/-- `handleSubmit` of `basic-settings/page.tsx` as a state transition on
the component state, given the result of the awaited request: messages
are cleared up front; on a success envelope the success message is set
and, only when the submitted record had no truthy id and the envelope
carries data, the settings are replaced by the returned record; on a
failure envelope nothing further happens; on the catch path the error
message is set; `saving` is reset in `finally`. -/
def handleSubmitComplete (st : SettingsPageState) (r : SubmitResult) :
    SettingsPageState :=
  let st1 := { st with saving := true, error := "", successMsg := "" }
  match r with
  | .envelope true _ d =>
      let st2 := { st1 with successMsg := "Settings saved successfully!" }
      let st3 :=
        if !idTruthy st2.settings.id then
          match d with
          | some dd => { st2 with settings := dd }
          | none => st2
        else st2
      { st3 with saving := false }
  | .envelope false _ _ => { st1 with saving := false }
  | .transportError m =>
      { st1 with error := m.getD "Failed to save settings", saving := false }

/-- A file as seen by `handleFileUpload`: its MIME `type` string and its
`size` in bytes. -/
structure UploadFile where
  type : String
  size : Nat
deriving Repr, DecidableEq

/-- The two upload fields of the settings page. -/
inductive UploadKind where
  | logo
  | favicon
deriving Repr, DecidableEq

/-- The MIME-type allow-list (`validTypes`) of `handleFileUpload`. -/
def validTypes : List String :=
  ["image/jpeg", "image/jpg", "image/png", "image/gif", "image/webp",
   "image/svg+xml", "image/x-icon"]

/-- The per-field byte ceiling: 2 MiB for the logo, 1 MiB for the
favicon (`type === "logo" ? 2 * 1024 * 1024 : 1 * 1024 * 1024`). -/
def maxUploadSize : UploadKind → Nat
  | .logo => 2 * 1024 * 1024
  | .favicon => 1 * 1024 * 1024

/-- The field name string used for the multipart form field and the
request path suffix. -/
def uploadKindName : UploadKind → String
  | .logo => "logo"
  | .favicon => "favicon"

/-- The observable outcome of `handleFileUpload`: rejected client-side
by `setError(...)` followed by `return` (zero network requests), or a
single multipart POST to `/basic-settings/<field>`. -/
inductive UploadAction where
  | rejected (errMsg : String)
  | request (path field : String)
deriving Repr, DecidableEq

/-- The error message set for a file type outside the allow-list
(the joined `validTypes.map(t => t.split("/")[1])`). -/
def invalidTypeMsg : String :=
  "Invalid file type. Please upload: jpeg, jpg, png, gif, webp, svg+xml, x-icon"

/-- The error message set for an oversized file. -/
def oversizeMsg (kind : UploadKind) : String :=
  "File size too large. Maximum " ++
    (match kind with | .logo => "2MB" | .favicon => "1MB") ++ " allowed."

/-- `handleFileUpload` of `basic-settings/page.tsx`: the type check,
then the size check, then the single `axiosInstance.post`. -/
def handleFileUpload (file : UploadFile) (kind : UploadKind) : UploadAction :=
  if ¬ file.type ∈ validTypes then
    .rejected invalidTypeMsg
  else if file.size > maxUploadSize kind then
    .rejected (oversizeMsg kind)
  else
    .request ("/basic-settings/" ++ uploadKindName kind) (uploadKindName kind)

/-! ## Sample data used by the concrete witness instances -/

/-- A pasted fragment mixing an allowed element, a dropped element and a
disallowed wrapper. -/
def pasteSampleNodes : List HtmlNode :=
  [.elem "div" [("style", "x")]
    [.elem "script" [] [.text "alert(1)"], .elem "b" [] [.text "hi"]]]

/-- A settings record with every editable field blank and a chosen id. -/
def blankSettings (i : Option Int) : BasicSettingsData :=
  { id := i, site_name := "", tagline := "", logo_url := "", favicon_url := "",
    contact_email := "", contact_phone := "", contact_address := "",
    facebook_url := "", x_url := "", instagram_url := "", meta_description := "",
    meta_keywords := "", meta_author := "", google_analytics_id := "",
    copyright_text := "", maintenance_mode := false }

/-- The registration form filled in by a user through the four rendered
inputs, starting from the initial state. -/
def sampleRegForm : RegForm :=
  setRegField
    (setRegField
      (setRegField (setRegField initialRegForm .nameField "Ann")
        .emailField "ann@example.com")
      .passwordField "hunter22")
    .confirmPasswordField "hunter22"

/-- A concrete stand-in for the browser's `new URL` parser, recognising
one `https:` URL and one `ftp:` URL. -/
def sampleUrlOracle : String → Option URLParts := fun s =>
  if s = "https://ok.example" then some ⟨"https:"⟩
  else if s = "ftp://x.example" then some ⟨"ftp:"⟩
  else none

/-! ## Claim theorems -/

theorem flattenList_append (xs ys : List HtmlNode) :
    flattenList (xs ++ ys) = flattenList xs ++ flattenList ys := by
  induction xs with
  | nil => simp [flattenList]
  | cons x xs ih => simp [flattenList, ih]

/-- C1: for a pasted payload carrying an HTML representation,
`handlePaste` inserts the sanitized fragment, every element tag of the
inserted content is in the fixed allow-list, a disallowed (non-dropped)
element is replaced by its sanitized inner content, and with no HTML
representation the plain-text representation is inserted instead. -/
theorem paste_sanitizes_to_allowlist (cd : ClipboardData) (ns : List HtmlNode)
    (t : String) (a : List (String × String)) (cs : List HtmlNode)
    (hdis : t ∉ allowedTags) (hkept : t ∉ droppedTags) :
    handlePaste { cd with html := some ns } = .htmlContent (cleanHtml ns) ∧
    listAllowed (cleanHtml ns) = true ∧
    cleanHtml (.elem t a cs :: ns) = cleanHtml cs ++ cleanHtml ns ∧
    handlePaste { cd with html := none } = .plainText cd.plain := by
  refine ⟨rfl, listAllowed_cleanHtml ns, ?_, rfl⟩
  simp [cleanHtml, removeDroppedList, removeDroppedNode, hkept, hdis,
    flattenList, flattenNode, flattenList_append]

/-- Concrete instance of C1: a pasted `<div style>` wrapper holding a
script and a `<b>` element sanitizes to only-allowed markup, a
disallowed `<span onclick>` is replaced by its inner text, and a payload
with no HTML representation falls back to its plain text. -/
theorem paste_sanitizes_to_allowlist_witness :
    handlePaste ⟨some pasteSampleNodes, "plain text"⟩ =
      .htmlContent (cleanHtml pasteSampleNodes) ∧
    listAllowed (cleanHtml pasteSampleNodes) = true ∧
    cleanHtml (.elem "span" [("onclick", "steal()")] [.text "y"] :: pasteSampleNodes) =
      cleanHtml [.text "y"] ++ cleanHtml pasteSampleNodes ∧
    handlePaste ⟨none, "plain text"⟩ = .plainText "plain text" :=
  paste_sanitizes_to_allowlist ⟨none, "plain text"⟩ pasteSampleNodes "span"
    [("onclick", "steal()")] [.text "y"] (by decide) (by decide)

/-- C8: the paste sanitizer checks only the tag name against the
allow-list; an allowed element keeps its attribute list verbatim,
whatever the attributes are. -/
theorem paste_keeps_attributes_verbatim (t : String) (a : List (String × String))
    (cs : List HtmlNode) (cd : ClipboardData) (h : t ∈ allowedTags) :
    cleanHtml [.elem t a cs] = [.elem t a (cleanHtml cs)] ∧
    handlePaste { cd with html := some [.elem t a cs] } =
      .htmlContent [.elem t a (cleanHtml cs)] := by
  have hnd : t ∉ droppedTags := allowed_not_dropped t h
  have h1 : cleanHtml [.elem t a cs] = [.elem t a (cleanHtml cs)] := by
    simp [cleanHtml, removeDroppedList, removeDroppedNode, hnd,
      flattenList, flattenNode, h]
  exact ⟨h1, by simp [handlePaste, h1]⟩

/-- Concrete instance of C8: a pasted `<p>` carrying an inline event
handler and a style attribute is inserted with both attributes kept
verbatim. -/
theorem paste_keeps_attributes_verbatim_witness :
    cleanHtml [.elem "p" [("onclick", "alert(1)"), ("style", "color:red")] [.text "hi"]] =
      [.elem "p" [("onclick", "alert(1)"), ("style", "color:red")] [.text "hi"]] ∧
    handlePaste
        ⟨some [.elem "p" [("onclick", "alert(1)"), ("style", "color:red")] [.text "hi"]], ""⟩ =
      .htmlContent
        [.elem "p" [("onclick", "alert(1)"), ("style", "color:red")] [.text "hi"]] :=
  paste_keeps_attributes_verbatim "p" [("onclick", "alert(1)"), ("style", "color:red")]
    [.text "hi"] ⟨none, ""⟩ (by decide)

/-- C2: after `handleLogin` processes a response whose success flag is
set, the persisted user record equals exactly the response's user
record, the response's token is stored, and a subsequent request through
the shared client carries `Bearer <token>` as its authorization
header. -/
theorem login_success_persists_session (st : ClientState) (r : LoginResponse)
    (h : r.success = true) :
    (handleLoginResponse st r).storedUser = some r.user ∧
    (handleLoginResponse st r).storedToken = some r.token ∧
    clientRequestHeaders (handleLoginResponse st r) =
      [("Authorization", "Bearer " ++ r.token)] := by
  simp [handleLoginResponse, h, clientRequestHeaders]

/-- Concrete instance of C2: a successful login with token `"tok123"`
persists the response's user record and token and makes later requests
carry `Bearer tok123`. -/
theorem login_success_persists_session_witness :
    (handleLoginResponse
        ⟨none, none, none, ⟨"ann@example.com", "hunter22"⟩, "", ""⟩
        ⟨true, "tok123", ⟨7, "Ann", "ann@example.com", "user"⟩⟩).storedUser =
      some ⟨7, "Ann", "ann@example.com", "user"⟩ ∧
    (handleLoginResponse
        ⟨none, none, none, ⟨"ann@example.com", "hunter22"⟩, "", ""⟩
        ⟨true, "tok123", ⟨7, "Ann", "ann@example.com", "user"⟩⟩).storedToken =
      some "tok123" ∧
    clientRequestHeaders
        (handleLoginResponse
          ⟨none, none, none, ⟨"ann@example.com", "hunter22"⟩, "", ""⟩
          ⟨true, "tok123", ⟨7, "Ann", "ann@example.com", "user"⟩⟩) =
      [("Authorization", "Bearer " ++ "tok123")] :=
  login_success_persists_session
    ⟨none, none, none, ⟨"ann@example.com", "hunter22"⟩, "", ""⟩
    ⟨true, "tok123", ⟨7, "Ann", "ann@example.com", "user"⟩⟩ rfl

/-- C5 -/
theorem auth_validation_blocks_before_request (r : RegForm) (l : LoginForm) :
    (regChecksFail r = true → ∃ m, handleRegistration r = .blocked m) ∧
    (regChecksFail r = false →
      handleRegistration r = .request r.name r.email r.password r.role) ∧
    (loginChecksFail l = true → ∃ m, handleLoginSubmit l = .blocked m) ∧
    (loginChecksFail l = false →
      handleLoginSubmit l = .request l.email l.password) := by
  have hreg2 : regChecksFail r = false →
      handleRegistration r = .request r.name r.email r.password r.role := by
    intro h
    simp only [regChecksFail, Bool.or_eq_false_iff, decide_eq_false_iff_not,
      Bool.not_eq_false', Bool.not_eq_true, decide_eq_false_iff_not,
      Nat.not_lt] at h
    obtain ⟨⟨⟨⟨⟨⟨hn, he⟩, hp⟩, hc⟩, hre⟩, hlen⟩, hm⟩ := h
    unfold handleRegistration
    rw [if_neg (by tauto), if_neg (by simp [hre]), if_neg (by omega),
      if_neg (by simpa using hm)]
  have hlog2 : loginChecksFail l = false →
      handleLoginSubmit l = .request l.email l.password := by
    intro h
    simp only [loginChecksFail, Bool.or_eq_false_iff, decide_eq_false_iff_not,
      Bool.not_eq_false'] at h
    obtain ⟨⟨he, hp⟩, hre⟩ := h
    unfold handleLoginSubmit
    rw [if_neg (by tauto), if_neg (by simp [hre])]
  refine ⟨?_, hreg2, ?_, hlog2⟩
  · intro h
    cases heq : handleRegistration r with
    | blocked m => exact ⟨m, rfl⟩
    | request n e p rl =>
        exfalso
        have hfail : regChecksFail r = false := by
          unfold handleRegistration at heq
          split_ifs at heq with h1 h2 h3 h4
          have h4eq : r.password = r.confirmPassword := not_not.mp h4
          have hc : ¬ r.confirmPassword = "" := by
            intro hc0
            apply h1
            right; right
            rw [h4eq, hc0]
          simp only [regChecksFail, Bool.or_eq_false_iff, decide_eq_false_iff_not,
            Bool.not_eq_false', Nat.not_lt]
          push_neg at h1
          refine ⟨⟨⟨⟨⟨⟨h1.1, h1.2.1⟩, h1.2.2⟩, hc⟩, ?_⟩, by omega⟩, h4⟩
          simpa using h2
        rw [h] at hfail
        cases hfail
  · intro h
    cases heq : handleLoginSubmit l with
    | blocked m => exact ⟨m, rfl⟩
    | request e p =>
        exfalso
        have hfail : loginChecksFail l = false := by
          unfold handleLoginSubmit at heq
          split_ifs at heq with h1 h2
          simp only [loginChecksFail, Bool.or_eq_false_iff, decide_eq_false_iff_not,
            Bool.not_eq_false']
          push_neg at h1
          exact ⟨⟨h1.1, h1.2⟩, by simpa using h2⟩
        rw [h] at hfail
        cases hfail
/-- Concrete instances of C5: a registration with mismatched
confirmation and a login with the malformed email `"not-an-email"` are
blocked, while fully valid forms issue exactly the request built from
their fields. -/
theorem auth_validation_blocks_before_request_witness :
    (∃ m, handleRegistration
        ⟨"Ann", "ann@example.com", "hunter22", "different", "user"⟩ = .blocked m) ∧
    handleRegistration ⟨"Ann", "ann@example.com", "hunter22", "hunter22", "user"⟩ =
      .request "Ann" "ann@example.com" "hunter22" "user" ∧
    (∃ m, handleLoginSubmit ⟨"not-an-email", "hunter22"⟩ = .blocked m) ∧
    handleLoginSubmit ⟨"ann@example.com", "hunter22"⟩ =
      .request "ann@example.com" "hunter22" :=
  ⟨(auth_validation_blocks_before_request
      ⟨"Ann", "ann@example.com", "hunter22", "different", "user"⟩
      ⟨"not-an-email", "hunter22"⟩).1 (by decide),
   (auth_validation_blocks_before_request
      ⟨"Ann", "ann@example.com", "hunter22", "hunter22", "user"⟩
      ⟨"ann@example.com", "hunter22"⟩).2.1 (by decide),
   (auth_validation_blocks_before_request
      ⟨"Ann", "ann@example.com", "hunter22", "different", "user"⟩
      ⟨"not-an-email", "hunter22"⟩).2.2.1 (by decide),
   (auth_validation_blocks_before_request
      ⟨"Ann", "ann@example.com", "hunter22", "hunter22", "user"⟩
      ⟨"ann@example.com", "hunter22"⟩).2.2.2 (by decide)⟩

/-- C10: in every reachable registration form state the role field
equals `"user"`, so a registration request can only carry role
`"user"`. -/
theorem registration_role_constant (fd : RegForm) (h : RegReachable fd) :
    fd.role = "user" ∧
    (∀ n e p rl, handleRegistration fd = .request n e p rl → rl = "user") := by
  have hrole : fd.role = "user" := by
    induction h with
    | init => rfl
    | change f v _ ih => cases f <;> simpa [setRegField] using ih
    | reset _ => rfl
  refine ⟨hrole, ?_⟩
  intro n e p rl hreq
  unfold handleRegistration at hreq
  split_ifs at hreq
  cases hreq
  exact hrole

theorem sampleRegForm_reachable : RegReachable sampleRegForm :=
  .change .confirmPasswordField "hunter22"
    (.change .passwordField "hunter22"
      (.change .emailField "ann@example.com"
        (.change .nameField "Ann" .init)))

/-- Concrete instance of C10: a fully filled-in reachable registration
form still has role `"user"`, and the request it produces carries role
`"user"`. -/
theorem registration_role_constant_witness :
    sampleRegForm.role = "user" ∧ "user" = "user" :=
  ⟨(registration_role_constant sampleRegForm sampleRegForm_reachable).1,
   (registration_role_constant sampleRegForm sampleRegForm_reachable).2
     "Ann" "ann@example.com" "hunter22" "user" (by decide)⟩

/-- Counterexample to C3 as stated: the record `blankSettings (some 0)`
has an identifier (namely 0), yet submission issues a create request to
the collection path, not an update request addressed to
`/basic-settings/0`. -/
theorem submit_id_zero_refutes_update_claim :
    (blankSettings (some 0)).id = some 0 ∧
    handleSubmitRequest (blankSettings (some 0)) =
      { method := .post, path := "/basic-settings", body := blankSettings (some 0) } ∧
    handleSubmitRequest (blankSettings (some 0)) ≠
      { method := .put, path := "/basic-settings/0", body := blankSettings (some 0) } := by
  refine ⟨rfl, by decide, by decide⟩

/-- C3 (amended): submission issues exactly one request; it is a POST to
the collection path when the identifier is absent or equal to 0, and a
PUT addressed to the identifier's path when the identifier is present
and nonzero. -/
theorem submit_create_or_update (s : BasicSettingsData) :
    (s.id = none → handleSubmitRequests s =
      [{ method := .post, path := "/basic-settings", body := s }]) ∧
    (∀ n : Int, s.id = some n → n ≠ 0 → handleSubmitRequests s =
      [{ method := .put, path := "/basic-settings/" ++ toString n, body := s }]) ∧
    (s.id = some 0 → handleSubmitRequests s =
      [{ method := .post, path := "/basic-settings", body := s }]) ∧
    (handleSubmitRequests s).length = 1 := by
  refine ⟨?_, ?_, ?_, rfl⟩
  · intro h
    simp [handleSubmitRequests, handleSubmitRequest, h]
  · intro n h hn
    simp [handleSubmitRequests, handleSubmitRequest, h, hn]
  · intro h
    simp [handleSubmitRequests, handleSubmitRequest, h]

/-- Concrete instances of the amended C3: a record with no id POSTs to
the collection path, a record with id 7 PUTs to `/basic-settings/7`, a
record with id 0 POSTs, and each submission issues exactly one
request. -/
theorem submit_create_or_update_witness :
    handleSubmitRequests (blankSettings none) =
      [{ method := .post, path := "/basic-settings", body := blankSettings none }] ∧
    handleSubmitRequests (blankSettings (some 7)) =
      [{ method := .put, path := "/basic-settings/" ++ toString (7 : Int),
         body := blankSettings (some 7) }] ∧
    handleSubmitRequests (blankSettings (some 0)) =
      [{ method := .post, path := "/basic-settings", body := blankSettings (some 0) }] ∧
    (handleSubmitRequests (blankSettings none)).length = 1 :=
  ⟨(submit_create_or_update (blankSettings none)).1 rfl,
   (submit_create_or_update (blankSettings (some 7))).2.1 7 rfl (by decide),
   (submit_create_or_update (blankSettings (some 0))).2.2.1 rfl,
   (submit_create_or_update (blankSettings none)).2.2.2⟩

/-- C9: the create-versus-update choice tests the identifier for JS
truthiness, not presence: a record whose identifier is present but equal
to 0 is submitted with a create request to the collection path. -/
theorem submit_id_zero_creates (s : BasicSettingsData) (h : s.id = some 0) :
    handleSubmitRequest s =
      { method := .post, path := "/basic-settings", body := s } := by
  simp [handleSubmitRequest, h]

/-- Concrete instance of C9: the blank record with id 0 is submitted as
a POST to `/basic-settings`. -/
theorem submit_id_zero_creates_witness :
    handleSubmitRequest (blankSettings (some 0)) =
      { method := .post, path := "/basic-settings", body := blankSettings (some 0) } :=
  submit_id_zero_creates (blankSettings (some 0)) rfl

/-- C4: a file whose MIME type is outside the allow-list, or whose size
exceeds the per-field ceiling, is rejected by `handleFileUpload` with an
error message, and its outcome is never a network request; a request is
issued only for an allowed type within the ceiling. -/
theorem upload_rejects_bad_type_or_size (f : UploadFile) (k : UploadKind) :
    (f.type ∉ validTypes → ∃ m, handleFileUpload f k = .rejected m) ∧
    (f.size > maxUploadSize k → ∃ m, handleFileUpload f k = .rejected m) ∧
    (∀ p fld, handleFileUpload f k = .request p fld →
      f.type ∈ validTypes ∧ f.size ≤ maxUploadSize k) := by
  refine ⟨?_, ?_, ?_⟩
  · intro h
    exact ⟨invalidTypeMsg, by simp [handleFileUpload, h]⟩
  · intro h
    by_cases ht : f.type ∈ validTypes
    · exact ⟨oversizeMsg k, by simp [handleFileUpload, ht, h]⟩
    · exact ⟨invalidTypeMsg, by simp [handleFileUpload, ht]⟩
  · intro p fld h
    by_cases ht : f.type ∈ validTypes
    · by_cases hs : f.size > maxUploadSize k
      · simp [handleFileUpload, ht, hs] at h
      · exact ⟨ht, by omega⟩
    · simp [handleFileUpload, ht] at h

/-- Concrete instances of C4: a 3 MiB `text/html` file for the logo
field fails both checks and is rejected with an error message, while a
small PNG favicon issues the upload request and therefore satisfies both
checks. -/
theorem upload_rejects_bad_type_or_size_witness :
    (∃ m, handleFileUpload ⟨"text/html", 3 * 1024 * 1024⟩ .logo = .rejected m) ∧
    (∃ m, handleFileUpload ⟨"text/html", 3 * 1024 * 1024⟩ .logo = .rejected m) ∧
    ("image/png" ∈ validTypes ∧ (100 : Nat) ≤ maxUploadSize .favicon) :=
  ⟨(upload_rejects_bad_type_or_size ⟨"text/html", 3 * 1024 * 1024⟩ .logo).1 (by decide),
   (upload_rejects_bad_type_or_size ⟨"text/html", 3 * 1024 * 1024⟩ .logo).2.1 (by decide),
   (upload_rejects_bad_type_or_size ⟨"image/png", 100⟩ .favicon).2.2
     "/basic-settings/favicon" "favicon" (by decide)⟩

/-- C7: when the submission fails — transport failure or a response
envelope with the success flag cleared — the settings record held by the
form after `handleSubmit` completes equals the record as the user last
edited it. -/
theorem submit_failure_preserves_settings (st : SettingsPageState)
    (r : SubmitResult) (h : submitFailed r = true) :
    (handleSubmitComplete st r).settings = st.settings := by
  cases r with
  | transportError m => rfl
  | envelope ok msg d =>
      cases ok with
      | true => simp [submitFailed] at h
      | false => rfl

/-- Concrete instance of C7: a service-reported failure leaves the
edited record (here the blank record with site name unsaved) exactly as
it was. -/
theorem submit_failure_preserves_settings_witness :
    (handleSubmitComplete
        ⟨blankSettings none, "", "", false⟩
        (.envelope false "db error" none)).settings = blankSettings none :=
  submit_failure_preserves_settings ⟨blankSettings none, "", "", false⟩
    (.envelope false "db error" none) rfl

/-- C6: `handleAddLink` inserts a link only when the input parses as a
URL whose protocol starts with `http`; an input that is empty (after
trimming), fails to parse, or has a protocol outside the http family is
rejected with the corresponding inline prompt and nothing is inserted —
the handler is a total function, so no failure is thrown. -/
theorem link_insertion_validates_url (parse : String → Option URLParts)
    (avail : Bool) (url txt sel : String) :
    (∀ h d, handleAddLink parse avail url txt sel = .inserted h d →
      h = url ∧ ∃ u, parse url = some u ∧ jsStartsWith u.protocol "http" = true) ∧
    (jsTrim url = "" →
      handleAddLink parse avail url txt sel = .rejected "Please enter a URL") ∧
    (jsTrim url ≠ "" → parse url = none →
      handleAddLink parse avail url txt sel =
        .rejected "Please enter a valid URL starting with http:// or https://") ∧
    (∀ u, jsTrim url ≠ "" → parse url = some u →
      jsStartsWith u.protocol "http" = false →
      handleAddLink parse avail url txt sel =
        .rejected "Please enter a valid URL starting with http:// or https://") := by
  refine ⟨?_, ?_, ?_, ?_⟩
  · intro h d hins
    by_cases h1 : jsTrim url = ""
    · simp [handleAddLink, h1] at hins
    · rcases hp : parse url with _ | u
      · simp [handleAddLink, h1, hp] at hins
      · by_cases h2 : jsStartsWith u.protocol "http" = true
        · cases avail with
          | false => simp [handleAddLink, h1, hp, h2] at hins
          | true =>
              refine ⟨?_, u, rfl, h2⟩
              simp [handleAddLink, h1, hp, h2] at hins
              exact hins.1.symm
        · have h2f : jsStartsWith u.protocol "http" = false := by
            simpa using h2
          simp [handleAddLink, h1, hp, h2f] at hins
  · intro h
    simp [handleAddLink, h]
  · intro h1 h2
    simp [handleAddLink, h1, h2]
  · intro u h1 h2 h3
    simp [handleAddLink, h1, h2, h3]

/-- Concrete instances of C6: with a parse oracle recognising two URLs,
an `https:` URL is inserted, a whitespace-only input, an unparsable
input and an `ftp:` URL are each rejected with their inline prompts. -/
theorem link_insertion_validates_url_witness :
    ("https://ok.example" = "https://ok.example" ∧
      ∃ u, sampleUrlOracle "https://ok.example" = some u ∧
        jsStartsWith u.protocol "http" = true) ∧
    handleAddLink sampleUrlOracle true "   " "" "" = .rejected "Please enter a URL" ∧
    handleAddLink sampleUrlOracle true "not a url" "" "" =
      .rejected "Please enter a valid URL starting with http:// or https://" ∧
    handleAddLink sampleUrlOracle true "ftp://x.example" "" "" =
      .rejected "Please enter a valid URL starting with http:// or https://" :=
  ⟨(link_insertion_validates_url sampleUrlOracle true "https://ok.example" "" "").1
     "https://ok.example" "https://ok.example" (by decide),
   (link_insertion_validates_url sampleUrlOracle true "   " "" "").2.1 (by decide),
   (link_insertion_validates_url sampleUrlOracle true "not a url" "" "").2.2.1
     (by decide) (by decide),
   (link_insertion_validates_url sampleUrlOracle true "ftp://x.example" "" "").2.2.2
     ⟨"ftp:"⟩ (by decide) (by decide) (by decide)⟩

end NewsPortal
